/-
Verification of the parcel zoning/FLU lookup pipeline.

Shallow embedding of the Python sources:
  src/app.py            (proposal generator with Pinellas/Hillsborough lookup)
  src/arcgis_utils.py   (ArcGIS discovery and field-scoring helpers)
  src/streamlit_app.py  (test app: Pinellas lookup router)

Strings are modelled as lists of characters; Python string methods used by
the code (strip, lower, upper, split, substring membership) are embedded
below on that representation, restricted to the character sets the program
actually handles (ASCII identifiers, digits, whitespace).
-/
import Mathlib

namespace ParcelLookup

/-- Strings of the embedded program: lists of characters. -/
abbrev Str := List Char

/-- Coerce a Lean string literal to the embedded representation. -/
def ofS (s : String) : Str := s.data

/-- Python whitespace for str.strip and the regex class backslash-s
(ASCII subset: space, tab, newline, vertical tab, form feed, carriage return). -/
def isPySpace (c : Char) : Bool :=
  c == ' ' || c == '\t' || c == '\n' || c == '\x0b' || c == '\x0c' || c == '\r'

/-- Python str.strip(): remove leading and trailing whitespace. -/
def pyStrip (s : Str) : Str :=
  ((s.dropWhile isPySpace).reverse.dropWhile isPySpace).reverse

/-- Python str.lower() (ASCII). -/
def pyLower (s : Str) : Str := s.map Char.toLower

/-- Python str.upper() (ASCII). -/
def pyUpper (s : Str) : Str := s.map Char.toUpper

/-- Does the second list start with the first one? -/
def hasPre (pre s : Str) : Bool :=
  match pre, s with
  | [], _ => true
  | _ :: _, [] => false
  | a :: ps, b :: ss => a == b && hasPre ps ss

/-- Python substring membership needle in hay. -/
def subIn (needle : Str) : Str → Bool
  | [] => needle.isEmpty
  | c :: rest => hasPre needle (c :: rest) || subIn needle rest

/-- Python text.split(sep, 1) for a one-character separator: the part before
the first occurrence and the part after it, or none when the separator is
absent. -/
def splitFirstSpace : Str → Option (Str × Str)
  | [] => none
  | c :: rest =>
    if c == ' ' then some ([], rest)
    else (splitFirstSpace rest).map (fun p => (c :: p.1, p.2))

/-- Lookup in an association list (first binding wins), modelling lookup in a
Python dict whose keys are unique. -/
def dictGet (l : List (Str × Str)) (k : Str) : Option Str :=
  (l.find? (fun kv => kv.1 == k)).map (fun kv => kv.2)

/-- Membership test for the same association lists. -/
def dictHas (l : List (Str × Str)) (k : Str) : Bool :=
  l.any (fun kv => kv.1 == k)

/- ===================================================================
   src/app.py lines 456-471, scrape_pinellas_property:
   Pinellas parcel-identifier normalisation.
   =================================================================== -/

/-- Embeds the normalisation step of scrape_pinellas_property
(src/app.py lines 466-471): strip the raw identifier, and when it has no
dash and exactly 18 characters, insert dashes after offsets 2, 4, 6, 11, 14
(digit groups 2-2-2-5-3-4). -/
def normalize_pinellas_parcel (raw : Str) : Str :=
  let p := pyStrip raw
  if !p.contains '-' && p.length == 18 then
    p.take 2 ++ '-' :: ((p.drop 2).take 2) ++ '-' :: ((p.drop 4).take 2)
      ++ '-' :: ((p.drop 6).take 5) ++ '-' :: ((p.drop 11).take 3)
      ++ '-' :: ((p.drop 14).take 4)
  else p

/- ===================================================================
   src/app.py lines 398-410: validate_parcel_id.
   =================================================================== -/

/-- Character allow-list of the validation regex in src/app.py line 407. -/
def allowedParcelChar (c : Char) : Bool :=
  c.isAlpha || c.isDigit || c == '-' || isPySpace c || c == '.'

/-- Embeds validate_parcel_id (src/app.py lines 398-410): empty input,
input over 30 characters, and input with a character outside the allow-list
are rejected with distinct messages; everything else passes. -/
def validate_parcel_id (parcel_id : Str) : Bool × Str :=
  if parcel_id.isEmpty then
    (false, ofS "Parcel ID cannot be empty")
  else if parcel_id.length > 30 then
    (false, ofS "Parcel ID must be 30 characters or less")
  else if parcel_id.all allowedParcelChar then
    (true, [])
  else
    (false, ofS "Invalid characters in parcel ID")

/- ===================================================================
   src/app.py lines 416-428: strip_dor_code.
   =================================================================== -/

/-- Embeds strip_dor_code (src/app.py lines 416-428): empty input yields
empty; otherwise the text is stripped, and when the stripped text starts
with a digit and contains a space, the part after the first space is
returned stripped; in every other case the stripped text is returned. -/
def strip_dor_code (t : Str) : Str :=
  if t.isEmpty then []
  else
    let text := pyStrip t
    match text with
    | [] => []
    | c :: _ =>
      if c.isDigit then
        match splitFirstSpace text with
        | some (_, after) => pyStrip after
        | none => text
      else text

/- ===================================================================
   Helper lemmas about the string model.
   =================================================================== -/

theorem dropWhile_eq_self_of (p : Char → Bool) (l : Str) (h : ∀ c ∈ l, p c = false) :
    l.dropWhile p = l := by
  cases l with
  | nil => rfl
  | cons c t => simp [List.dropWhile_cons, h c (by simp)]

theorem pyStrip_of_no_space (s : Str) (h : ∀ c ∈ s, isPySpace c = false) :
    pyStrip s = s := by
  unfold pyStrip
  rw [dropWhile_eq_self_of _ _ h,
      dropWhile_eq_self_of _ _ (fun c hc => h c (List.mem_reverse.mp hc)),
      List.reverse_reverse]

theorem digit_not_space {c : Char} (h : c.isDigit = true) : isPySpace c = false := by
  by_contra hsp
  rw [Bool.not_eq_false] at hsp
  simp only [isPySpace, Bool.or_eq_true, beq_iff_eq] at hsp
  rcases hsp with ((((rfl | rfl) | rfl) | rfl) | rfl) | rfl <;> exact absurd h (by decide)

theorem digit_keep_dashless {c : Char} (h : c.isDigit = true) : (!(c == '-')) = true := by
  rcases hbe : (c == '-') with _ | _
  · rfl
  · exact absurd (beq_iff_eq.mp hbe ▸ h) (by decide)

/- ===================================================================
   C2: the 18-digit normalizer.
   =================================================================== -/

/-- C2: for every input of exactly 18 digits (hence dashless), the
normalizer emits six dash-separated groups of lengths 2-2-2-5-3-4, and
removing the dashes from the output gives back exactly the input. -/
theorem spec_C2_normalize (s : Str) (hlen : s.length = 18)
    (hdig : ∀ c ∈ s, c.isDigit = true) :
    ∃ g1 g2 g3 g4 g5 g6 : Str,
      normalize_pinellas_parcel s
        = g1 ++ '-' :: (g2 ++ '-' :: (g3 ++ '-' :: (g4 ++ '-' :: (g5 ++ '-' :: g6))))
      ∧ g1.length = 2 ∧ g2.length = 2 ∧ g3.length = 2
      ∧ g4.length = 5 ∧ g5.length = 3 ∧ g6.length = 4
      ∧ (normalize_pinellas_parcel s).filter (fun c => !(c == '-')) = s := by
  have hnos : ∀ c ∈ s, isPySpace c = false := fun c hc => digit_not_space (hdig c hc)
  have hstrip : pyStrip s = s := pyStrip_of_no_space s hnos
  have hmem : ¬ ('-' ∈ s) := fun hcon => absurd (hdig '-' hcon) (by decide)
  have heq : normalize_pinellas_parcel s
      = s.take 2 ++ '-' :: ((s.drop 2).take 2 ++ '-' :: ((s.drop 4).take 2
        ++ '-' :: ((s.drop 6).take 5 ++ '-' :: ((s.drop 11).take 3
        ++ '-' :: (s.drop 14).take 4)))) := by
    unfold normalize_pinellas_parcel
    simp [hstrip, hmem, hlen]
  have e6 : (s.drop 14).take 4 = s.drop 14 :=
    List.take_of_length_le (by simp [hlen])
  have e5 : s.drop 11 = (s.drop 11).take 3 ++ s.drop 14 := by
    simpa [List.drop_drop] using (List.take_append_drop 3 (s.drop 11)).symm
  have e4 : s.drop 6 = (s.drop 6).take 5 ++ s.drop 11 := by
    simpa [List.drop_drop] using (List.take_append_drop 5 (s.drop 6)).symm
  have e3 : s.drop 4 = (s.drop 4).take 2 ++ s.drop 6 := by
    simpa [List.drop_drop] using (List.take_append_drop 2 (s.drop 4)).symm
  have e2 : s.drop 2 = (s.drop 2).take 2 ++ s.drop 4 := by
    simpa [List.drop_drop] using (List.take_append_drop 2 (s.drop 2)).symm
  have e1 : s = s.take 2 ++ s.drop 2 := (List.take_append_drop 2 s).symm
  have hconcat : s.take 2 ++ ((s.drop 2).take 2 ++ ((s.drop 4).take 2
      ++ ((s.drop 6).take 5 ++ ((s.drop 11).take 3 ++ (s.drop 14).take 4)))) = s := by
    rw [e6, ← e5, ← e4, ← e3, ← e2, ← e1]
  refine ⟨s.take 2, (s.drop 2).take 2, (s.drop 4).take 2, (s.drop 6).take 5,
      (s.drop 11).take 3, (s.drop 14).take 4, heq, ?_, ?_, ?_, ?_, ?_, ?_, ?_⟩
  · simp [List.length_take, hlen]
  · simp [List.length_take, List.length_drop, hlen]
  · simp [List.length_take, List.length_drop, hlen]
  · simp [List.length_take, List.length_drop, hlen]
  · simp [List.length_take, List.length_drop, hlen]
  · simp [List.length_take, List.length_drop, hlen]
  · have hfil : ∀ l : Str, (∀ c ∈ l, c.isDigit = true) →
        l.filter (fun c => !(c == '-')) = l := by
      intro l hl
      exact List.filter_eq_self.mpr (fun c hc => digit_keep_dashless (hl c hc))
    have hs1 : ∀ c ∈ s.take 2, c.isDigit = true :=
      fun c hc => hdig c (List.take_subset _ _ hc)
    have hs : ∀ k n : Nat, ∀ c ∈ (s.drop k).take n, c.isDigit = true :=
      fun k n c hc => hdig c (List.drop_subset _ _ (List.take_subset _ _ hc))
    rw [heq]
    simp only [List.filter_append, List.filter_cons]
    norm_num
    rw [hfil _ hs1, hfil _ (hs 2 2), hfil _ (hs 4 2), hfil _ (hs 6 5),
        hfil _ (hs 11 3), hfil _ (hs 14 4)]
    exact hconcat

/-- C2 witness: the documented example normalizes as stated. -/
theorem spec_C2_normalize_witness :
    normalize_pinellas_parcel (ofS "193117731660010010") = ofS "19-31-17-73166-001-0010"
    ∧ ∃ g1 g2 g3 g4 g5 g6 : Str,
      normalize_pinellas_parcel (ofS "193117731660010010")
        = g1 ++ '-' :: (g2 ++ '-' :: (g3 ++ '-' :: (g4 ++ '-' :: (g5 ++ '-' :: g6))))
      ∧ g1.length = 2 ∧ g2.length = 2 ∧ g3.length = 2
      ∧ g4.length = 5 ∧ g5.length = 3 ∧ g6.length = 4
      ∧ (normalize_pinellas_parcel (ofS "193117731660010010")).filter (fun c => !(c == '-'))
          = ofS "193117731660010010" :=
  ⟨by decide, spec_C2_normalize (ofS "193117731660010010") (by decide) (by decide)⟩

/- ===================================================================
   More helper lemmas: splitFirstSpace and pyStrip.
   =================================================================== -/

theorem splitFirstSpace_some {s b a : Str} (h : splitFirstSpace s = some (b, a)) :
    s = b ++ ' ' :: a := by
  induction s generalizing b a with
  | nil => cases h
  | cons c rest ih =>
    rcases hc : (c == ' ') with _ | _
    · rw [splitFirstSpace, if_neg (by simp [hc])] at h
      rcases Option.map_eq_some'.mp h with ⟨p, hp, hpe⟩
      cases hpe
      simpa using ih hp
    · rw [splitFirstSpace, if_pos (by simp_all)] at h
      cases h
      simpa using (beq_iff_eq.mp hc)

theorem head?_dropWhile {p : Char → Bool} {l : Str} {c : Char}
    (h : (l.dropWhile p).head? = some c) : p c = false := by
  induction l with
  | nil => cases h
  | cons x t ih =>
    rcases hx : p x with _ | _
    · rw [List.dropWhile_cons, if_neg (by simp [hx])] at h
      cases h
      exact hx
    · rw [List.dropWhile_cons, if_pos (by simp [hx])] at h
      exact ih h

theorem pyStrip_getLast {t : Str} {c : Char} (h : (pyStrip t).getLast? = some c) :
    isPySpace c = false := by
  unfold pyStrip at h
  rw [List.getLast?_reverse] at h
  exact head?_dropWhile h

theorem pyStrip_eq_nil {a : Str} (h : pyStrip a = []) : ∀ c ∈ a, isPySpace c = true := by
  unfold pyStrip at h
  rw [List.reverse_eq_nil_iff, List.dropWhile_eq_nil_iff] at h
  have hdrop : ∀ c ∈ a.dropWhile isPySpace, isPySpace c = true :=
    fun c hc => h c (List.mem_reverse.mpr hc)
  intro c hc
  rw [← List.takeWhile_append_dropWhile (p := isPySpace) (l := a)] at hc
  rcases List.mem_append.mp hc with htk | hdr
  · exact List.mem_takeWhile_imp htk
  · exact hdrop c hdr

/-- After stripping, the remainder behind the first space can never strip to
empty: the stripped text has no trailing whitespace. -/
theorem split_of_pyStrip_rest_nonempty {t b a : Str}
    (h : splitFirstSpace (pyStrip t) = some (b, a)) : pyStrip a ≠ [] := by
  intro hnil
  have hall : ∀ c ∈ a, isPySpace c = true := pyStrip_eq_nil hnil
  have hdecomp : pyStrip t = b ++ ' ' :: a := splitFirstSpace_some h
  rcases List.eq_nil_or_concat a with rfl | ⟨a', x, rfl⟩
  · have hl : (pyStrip t).getLast? = some ' ' := by
      rw [hdecomp]; exact List.getLast?_concat _
    exact absurd (pyStrip_getLast hl) (by decide)
  · have hl : (pyStrip t).getLast? = some x := by
      rw [hdecomp, List.concat_eq_append,
          show b ++ ' ' :: (a' ++ [x]) = (b ++ ' ' :: a') ++ [x] by simp]
      exact List.getLast?_concat _
    exact absurd (hall x (by simp)) (by simp [pyStrip_getLast hl])

/- ===================================================================
   C6: the DOR-code stripper.
   =================================================================== -/

/-- C6 as claimed: a land-use string beginning with a digit has its leading
code token removed (original kept when the remainder is empty), and a string
with no leading digit run is returned unchanged. -/
def claim_C6 : Prop :=
  (∀ (t : Str) (c : Char) (rest : Str), t = c :: rest → c.isDigit = true →
      strip_dor_code t = (match splitFirstSpace t with
        | some (_, after) => if after.isEmpty then t else after
        | none => t))
  ∧ (∀ t : Str, (∀ c, t.head? = some c → c.isDigit = false) → strip_dor_code t = t)
  ∧ strip_dor_code (ofS "0017 Office buildings, one story") = ofS "Office buildings, one story"
  ∧ strip_dor_code (ofS "General Office") = ofS "General Office"

/-- C6 counterexample: the input consisting of General Office surrounded by
spaces has no leading digit run but is not returned unchanged: the code first
trims surrounding whitespace. -/
theorem spec_C6_cex : ¬ claim_C6 := by
  intro h
  exact absurd (h.2.1 (ofS " General Office ") (by decide)) (by decide)

/-- C6 amended: the stripper first trims surrounding whitespace; a trimmed
text with no leading digit is returned trimmed but otherwise unchanged; a
trimmed text with a leading digit is cut behind its first space (the
remainder, re-trimmed) when a space exists, and kept whole otherwise; the
remainder behind the first space of a trimmed text is never empty, and the
two documented examples hold. -/
theorem spec_C6_strip_dor_code :
    (∀ t : Str, (∀ c, (pyStrip t).head? = some c → c.isDigit = false) →
      strip_dor_code t = pyStrip t)
    ∧ (∀ (t : Str) (c : Char) (rest : Str), pyStrip t = c :: rest → c.isDigit = true →
      strip_dor_code t = (match splitFirstSpace (pyStrip t) with
        | some (_, after) => pyStrip after
        | none => pyStrip t))
    ∧ (∀ t b a : Str, splitFirstSpace (pyStrip t) = some (b, a) → pyStrip a ≠ [])
    ∧ strip_dor_code (ofS "0017 Office buildings, one story") = ofS "Office buildings, one story"
    ∧ strip_dor_code (ofS "General Office") = ofS "General Office" := by
  refine ⟨?_, ?_, fun t b a h => split_of_pyStrip_rest_nonempty h, by decide, by decide⟩
  · intro t hnd
    rcases ht : t.isEmpty with _ | _
    · unfold strip_dor_code
      rw [if_neg (by simp [ht])]
      rcases hs : pyStrip t with _ | ⟨c, rest⟩
      · simp
      · simp only [hs]
        rw [if_neg (by simp [hnd c (by rw [hs]; rfl)])]
    · have : t = [] := by simpa [List.isEmpty_iff] using ht
      subst this
      rfl
  · intro t c rest hs hdig
    have ht : t.isEmpty = false := by
      rcases t with _ | _
      · rw [show pyStrip [] = [] from rfl] at hs; cases hs
      · rfl
    unfold strip_dor_code
    rw [if_neg (by simp [ht])]
    simp only [hs]
    rw [if_pos hdig]

/-- C6 amended witness: a padded digit-coded land-use string is cut behind
its first space and re-trimmed. -/
theorem spec_C6_strip_dor_code_witness :
    strip_dor_code (ofS " 0017 Offices ") = ofS "Offices" :=
  (spec_C6_strip_dor_code.2.1 (ofS " 0017 Offices ") '0' (ofS "017 Offices")
    (by decide) (by decide)).trans (by decide)

/- ===================================================================
   C8: parcel-identifier validation.
   =================================================================== -/

/-- C8: validation fails exactly for empty input, input over 30 characters,
or input with a character outside the allow-list, each with its own message;
in particular the injection probe with a quote character is rejected as
invalid characters. -/
theorem spec_C8_validate_parcel_id :
    (∀ p : Str, (validate_parcel_id p).1 = false ↔
        (p = [] ∨ 30 < p.length ∨ ∃ c ∈ p, allowedParcelChar c = false))
    ∧ (validate_parcel_id []).2 = ofS "Parcel ID cannot be empty"
    ∧ (∀ p : Str, 30 < p.length →
        (validate_parcel_id p).2 = ofS "Parcel ID must be 30 characters or less")
    ∧ (∀ p : Str, p ≠ [] → p.length ≤ 30 → (∃ c ∈ p, allowedParcelChar c = false) →
        (validate_parcel_id p).2 = ofS "Invalid characters in parcel ID")
    ∧ validate_parcel_id (ofS "abc';DROP") = (false, ofS "Invalid characters in parcel ID") := by
  refine ⟨?_, by decide, ?_, ?_, by decide⟩
  · intro p
    rcases hp : p.isEmpty with _ | _
    · have hpne : ¬ (p = []) := by simpa [List.isEmpty_iff] using hp
      by_cases hlen : 30 < p.length
      · simp [validate_parcel_id, hp, hlen]
      · rcases hall : p.all allowedParcelChar with _ | _
        · have hbad : ∃ c ∈ p, allowedParcelChar c = false := by
            by_contra hno
            push_neg at hno
            have hto : p.all allowedParcelChar = true :=
              List.all_eq_true.mpr (fun c hc => by
                simpa [Bool.not_eq_false] using hno c hc)
            simp [hto] at hall
          simp only [validate_parcel_id]
          rw [if_neg (by simp [hp]), if_neg hlen, if_neg (by simp [hall])]
          simp only [true_iff]
          exact Or.inr (Or.inr hbad)
        · have hgood : ∀ c ∈ p, allowedParcelChar c = true := List.all_eq_true.mp hall
          simp only [validate_parcel_id]
          rw [if_neg (by simp [hp]), if_neg hlen, if_pos (by simp [hall])]
          simp only [Bool.true_eq_false, false_iff]
          rintro (rfl | h31 | ⟨c, hc, hcb⟩)
          · exact hpne rfl
          · exact hlen h31
          · exact absurd (hgood c hc) (by simp [hcb])
    · have : p = [] := by simpa [List.isEmpty_iff] using hp
      subst this
      simp [validate_parcel_id]
  · intro p hlen
    have hpne : p.isEmpty = false := by
      rcases p with _ | _
      · simp at hlen
      · rfl
    unfold validate_parcel_id
    rw [if_neg (by simp [hpne]), if_pos (by simpa using hlen)]
  · intro p hne hlen hbad
    have hpne : p.isEmpty = false := by simpa [List.isEmpty_eq_false] using hne
    have hall : p.all allowedParcelChar = false := by
      obtain ⟨c, hc, hcb⟩ := hbad
      rcases h : p.all allowedParcelChar with _ | _
      · rfl
      · exact absurd (List.all_eq_true.mp h c hc) (by simp [hcb])
    unfold validate_parcel_id
    rw [if_neg (by simp [hpne]), if_neg (by simpa using Nat.not_lt.mpr hlen),
        if_neg (by simp [hall])]

/-- C8 witness: a 33-character identifier is rejected as over-long, and the
injection probe fails validation. -/
theorem spec_C8_validate_parcel_id_witness :
    (validate_parcel_id (ofS "0123456789012345678901234567890123")).2
      = ofS "Parcel ID must be 30 characters or less"
    ∧ (validate_parcel_id (ofS "abc';DROP")).1 = false :=
  ⟨spec_C8_validate_parcel_id.2.2.1 _ (by decide),
   (spec_C8_validate_parcel_id.1 _).mpr
     (Or.inr (Or.inr ⟨'\'', by decide, by decide⟩))⟩

/- ===================================================================
   src/arcgis_utils.py lines 81-117: field scoring and selection.
   =================================================================== -/

/-- A coded-value domain from ArcGIS layer metadata: its type tag and its
code-to-name pairs (src/arcgis_utils.py lines 107 and 120-127 read exactly
these keys). -/
structure DomainDef where
  type : Str
  codedValues : List (Str × Str)
  deriving DecidableEq

/-- A field definition from ArcGIS layer metadata: name, alias and optional
domain (the alias key is spelled falias because alias is a Lean keyword). -/
structure FieldDef where
  name : Str
  falias : Str
  domain : Option DomainDef
  deriving DecidableEq

/-- Embeds score_field of src/arcgis_utils.py lines 81-95: the textual
name-plus-alias heuristic per kind. -/
def score_field (name falias : Str) (kind : Str) : Int :=
  let text := pyLower (name ++ ' ' :: falias)
  if kind == ofS "zoning" then
    if subIn (ofS "zoneclass") text || subIn (ofS "zoning") text then 100
    else if subIn (ofS "zone") text then 80
    else 0
  else if kind == ofS "flu" then
    if subIn (ofS "future") text && subIn (ofS "use") text then 100
    else if subIn (ofS "landuse") text || subIn (ofS "land use") text
        || subIn (ofS "flum") text || subIn (ofS "flu") text then 80
    else 0
  else 0

/-- The has_coded test of pick_best_code_field (src/arcgis_utils.py line
107): the field carries a domain object whose type is codedValue. -/
def has_coded_domain (f : FieldDef) : Bool :=
  match f.domain with
  | some d => d.type == ofS "codedValue"
  | none => false

/-- The per-field score inside the pick_best_code_field loop
(src/arcgis_utils.py lines 108-110): textual score plus a bonus of 50 for a
coded-value domain. -/
def field_total_score (f : FieldDef) (kind : Str) : Int :=
  score_field f.name f.falias kind + (if has_coded_domain f then 50 else 0)

/-- The fold of the pick_best_code_field loop (src/arcgis_utils.py lines
100-113), carrying the best field so far and its score (initially -1). -/
def pick_best_loop (kind : Str) : List FieldDef → Option FieldDef → Int → Option FieldDef × Int
  | [], best, bs => (best, bs)
  | f :: rest, best, bs =>
    let sc := field_total_score f kind
    if bs < sc then pick_best_loop kind rest (some f) sc
    else pick_best_loop kind rest best bs

/-- Embeds pick_best_code_field (src/arcgis_utils.py lines 98-117): run the
loop over the field list and drop the result when the best score is
non-positive. -/
def pick_best_code_field (fields : List FieldDef) (kind : Str) : Option FieldDef :=
  let r := pick_best_loop kind fields none (-1)
  if r.2 ≤ 0 then none else r.1

theorem pick_best_loop_spec (kind : Str) (l : List FieldDef)
    (best : Option FieldDef) (bs : Int) :
    bs ≤ (pick_best_loop kind l best bs).2
    ∧ (∀ g ∈ l, field_total_score g kind ≤ (pick_best_loop kind l best bs).2)
    ∧ ((pick_best_loop kind l best bs) = (best, bs)
       ∨ ∃ f ∈ l, (pick_best_loop kind l best bs).1 = some f
          ∧ (pick_best_loop kind l best bs).2 = field_total_score f kind
          ∧ bs < (pick_best_loop kind l best bs).2) := by
  induction l generalizing best bs with
  | nil => exact ⟨le_refl _, by simp, Or.inl rfl⟩
  | cons f rest ih =>
    by_cases hlt : bs < field_total_score f kind
    · rw [show pick_best_loop kind (f :: rest) best bs
          = pick_best_loop kind rest (some f) (field_total_score f kind) by
        rw [pick_best_loop]; simp [hlt]]
      obtain ⟨h1, h2, h3⟩ := ih (some f) (field_total_score f kind)
      refine ⟨le_of_lt (lt_of_lt_of_le hlt h1), ?_, ?_⟩
      · intro g hg
        rcases List.mem_cons.mp hg with rfl | hg
        · exact h1
        · exact h2 g hg
      · rcases h3 with heq | ⟨f', hf', e1, e2, hgt⟩
        · exact Or.inr ⟨f, List.mem_cons_self _ _,
            by rw [heq], by rw [heq], by rw [heq]; exact hlt⟩
        · exact Or.inr ⟨f', List.mem_cons_of_mem _ hf', e1, e2, lt_trans hlt hgt⟩
    · rw [show pick_best_loop kind (f :: rest) best bs
          = pick_best_loop kind rest best bs by
        rw [pick_best_loop]; simp [hlt]]
      obtain ⟨h1, h2, h3⟩ := ih best bs
      refine ⟨h1, ?_, ?_⟩
      · intro g hg
        rcases List.mem_cons.mp hg with rfl | hg
        · exact le_trans (not_lt.mp hlt) h1
        · exact h2 g hg
      · rcases h3 with heq | ⟨f', hf', e1, e2, hgt⟩
        · exact Or.inl heq
        · exact Or.inr ⟨f', List.mem_cons_of_mem _ hf', e1, e2, hgt⟩

/-- C4: the code-field picker returns a field attaining the maximal
heuristic score (textual kind score plus the fixed coded-value-domain bonus
of 50) whenever some field scores strictly positive, and returns no field
whenever every field scores non-positive. -/
theorem spec_C4_pick_best_code_field (fields : List FieldDef) (kind : Str) :
    ((∀ f ∈ fields, field_total_score f kind ≤ 0) →
        pick_best_code_field fields kind = none)
    ∧ (∀ f ∈ fields, 0 < field_total_score f kind →
        ∃ b, pick_best_code_field fields kind = some b ∧ b ∈ fields
          ∧ ∀ g ∈ fields, field_total_score g kind ≤ field_total_score b kind) := by
  obtain ⟨h1, h2, h3⟩ := pick_best_loop_spec kind fields none (-1)
  constructor
  · intro hall
    have hle : (pick_best_loop kind fields none (-1)).2 ≤ 0 := by
      rcases h3 with heq | ⟨f, hf, _, e2, _⟩
      · rw [heq]; norm_num
      · rw [e2]; exact hall f hf
    unfold pick_best_code_field
    rw [if_pos hle]
  · intro f hf hpos
    have hgt : 0 < (pick_best_loop kind fields none (-1)).2 :=
      lt_of_lt_of_le hpos (h2 f hf)
    rcases h3 with heq | ⟨b, hb, e1, e2, _⟩
    · rw [heq] at hgt; norm_num at hgt
    · refine ⟨b, ?_, hb, fun g hg => ?_⟩
      · unfold pick_best_code_field
        rw [if_neg (not_le.mpr hgt), e1]
      · rw [← e2]; exact h2 g hg

/-- C4 witness: on a two-field layer schema where the second field is a
coded-value zoning field, the picker selects a maximal positive-scoring
field. -/
theorem spec_C4_pick_best_code_field_witness :
    ∃ b, pick_best_code_field
        [⟨ofS "OBJECTID", ofS "Object ID", none⟩,
         ⟨ofS "ZONING", ofS "Zoning District",
            some ⟨ofS "codedValue", [(ofS "R-1", ofS "Residential-1")]⟩⟩]
        (ofS "zoning") = some b
      ∧ b ∈ [⟨ofS "OBJECTID", ofS "Object ID", none⟩,
         ⟨ofS "ZONING", ofS "Zoning District",
            some ⟨ofS "codedValue", [(ofS "R-1", ofS "Residential-1")]⟩⟩]
      ∧ ∀ g ∈ [⟨ofS "OBJECTID", ofS "Object ID", none⟩,
         (⟨ofS "ZONING", ofS "Zoning District",
            some ⟨ofS "codedValue", [(ofS "R-1", ofS "Residential-1")]⟩⟩ : FieldDef)],
          field_total_score g (ofS "zoning")
            ≤ field_total_score b (ofS "zoning") :=
  (spec_C4_pick_best_code_field _ _).2
    ⟨ofS "ZONING", ofS "Zoning District",
        some ⟨ofS "codedValue", [(ofS "R-1", ofS "Residential-1")]⟩⟩
    (by decide) (by decide)

/- ===================================================================
   src/streamlit_app.py lines 65-84: the jurisdiction resolver.
   =================================================================== -/

/-- Feature attributes: an association list from attribute name to an
optional value, where none models a JSON null. -/
abbrev Attrs := List (Str × Option Str)

/-- Python attrs.get(key): none when the key is absent; the found value may
itself be null. -/
def attrsGet (a : Attrs) (k : Str) : Option (Option Str) :=
  (a.find? (fun kv => kv.1 == k)).map (fun kv => kv.2)

/-- The Python idiom (value or empty string): the attribute value when
present, non-null and non-empty, otherwise the empty string. -/
def orEmpty (v : Option (Option Str)) : Str :=
  match v with
  | some (some s) => s
  | _ => []

/-- Embeds extract_first_attributes (src/arcgis_utils.py lines 70-74) on a
feature set modelled as the list of the attribute maps of its features. -/
def extract_first_attributes : List Attrs → Option Attrs
  | [] => none
  | a :: _ => some a

/-- Embeds pinellas_get_jurisdiction (src/streamlit_app.py lines 65-84),
modulo the spatial query itself: the boundary features returned by the query
are the muniFeats input. The function returns the stripped name attribute of
the first feature when non-blank, else the unincorporated sentinel. The
second tuple component of the source (the raw attributes) is dropped. -/
def pinellas_get_jurisdiction (muniFeats : List Attrs) (name_field : Str) : Str :=
  let attrs := (extract_first_attributes muniFeats).getD []
  let name := pyStrip (orEmpty (attrsGet attrs name_field))
  if name.isEmpty then ofS "Unincorporated Pinellas County" else name

/-- C3 as claimed: with at least one boundary feature the resolver returns
the name attribute of the first feature; with zero features it returns the
unincorporated sentinel. -/
def claim_C3 : Prop :=
  (∀ (a : Attrs) (rest : List Attrs) (nf v : Str),
      attrsGet a nf = some (some v) →
      pinellas_get_jurisdiction (a :: rest) nf = v)
  ∧ (∀ nf : Str, pinellas_get_jurisdiction [] nf = ofS "Unincorporated Pinellas County")

/-- C3 counterexample: a single boundary feature whose name attribute is
Largo surrounded by spaces; the resolver returns the stripped name, not the
attribute value itself. -/
theorem spec_C3_cex : ¬ claim_C3 := by
  intro h
  have := h.1 [(ofS "NAME", some (ofS " Largo "))] [] (ofS "NAME") (ofS " Largo ") (by decide)
  exact absurd this (by decide)

/-- C3 amended: the resolver returns the whitespace-stripped name attribute
of the first boundary feature when that strips to non-empty; it returns the
unincorporated sentinel when the query returns zero features or when the
first feature's name attribute is missing, null, or blank after
stripping. -/
theorem spec_C3_jurisdiction (muniFeats : List Attrs) (nf : Str) :
    (muniFeats = [] →
        pinellas_get_jurisdiction muniFeats nf = ofS "Unincorporated Pinellas County")
    ∧ (∀ a rest, muniFeats = a :: rest →
        pyStrip (orEmpty (attrsGet a nf)) ≠ [] →
        pinellas_get_jurisdiction muniFeats nf = pyStrip (orEmpty (attrsGet a nf)))
    ∧ (∀ a rest, muniFeats = a :: rest →
        pyStrip (orEmpty (attrsGet a nf)) = [] →
        pinellas_get_jurisdiction muniFeats nf = ofS "Unincorporated Pinellas County") := by
  refine ⟨?_, ?_, ?_⟩
  · rintro rfl
    rfl
  · rintro a rest rfl hne
    have hred : pinellas_get_jurisdiction (a :: rest) nf
        = (if (pyStrip (orEmpty (attrsGet a nf))).isEmpty
            then ofS "Unincorporated Pinellas County"
            else pyStrip (orEmpty (attrsGet a nf))) := rfl
    rw [hred, if_neg (by simpa [List.isEmpty_iff] using hne)]
  · rintro a rest rfl hnil
    have hred : pinellas_get_jurisdiction (a :: rest) nf
        = (if (pyStrip (orEmpty (attrsGet a nf))).isEmpty
            then ofS "Unincorporated Pinellas County"
            else pyStrip (orEmpty (attrsGet a nf))) := rfl
    rw [hred, if_pos (by simpa [List.isEmpty_iff] using hnil)]

/-- C3 amended witness: a clean single-feature result resolves to the
name of the feature. -/
theorem spec_C3_jurisdiction_witness :
    pinellas_get_jurisdiction [[(ofS "NAME", some (ofS "Largo"))]] (ofS "NAME")
      = ofS "Largo" :=
  ((spec_C3_jurisdiction _ _).2.1 _ [] rfl (by decide)).trans (by decide)

/- ===================================================================
   C5: coded-value resolution.
   src/arcgis_utils.py lines 120-127 (coded_value_map),
   src/streamlit_app.py lines 87-146 (query_zoning_or_flu),
   src/app.py lines 617-720 (lookup_unincorporated_zoning).
   =================================================================== -/

/-- Embeds coded_value_map (src/arcgis_utils.py lines 120-127): the
code-to-name pairs of the field's domain when that domain has type
codedValue, else the empty map. -/
def coded_value_map (f : FieldDef) : List (Str × Str) :=
  match f.domain with
  | some d => if d.type == ofS "codedValue" then d.codedValues else []
  | none => []

/-- Lookup in a dict built by inserting pairs in order: the last binding of
a key wins, mirroring Python dict construction from a pair list. -/
def dictGetLast (l : List (Str × Str)) (k : Str) : Option Str :=
  (l.reverse.find? (fun kv => kv.1 == k)).map (fun kv => kv.2)

/-- The fixed alternate description keys tried by query_zoning_or_flu
(src/streamlit_app.py line 134). -/
def altDescKeys : List Str :=
  [ofS "ZONEDESC", ofS "ZONE_DESC", ofS "DESCRIPTION", ofS "DESC",
   ofS "LANDUSE_DESC", ofS "FLU_DESC", ofS "FUTURE_LAND_USE_DESC"]

/-- The fallback loop of src/streamlit_app.py lines 133-137: the first
alternate key present in the attributes with a truthy value. -/
def first_alt_desc (attrs : Attrs) : Str :=
  match altDescKeys.findSome? (fun k =>
    match attrsGet attrs k with
    | some (some v) => if v.isEmpty then none else some v
    | _ => none) with
  | some v => v
  | none => []

/-- Result shape of query_zoning_or_flu; the layer_url, kind and raw echo
fields of the source dict are omitted. -/
structure QueryOut where
  ok : Bool
  code : Str
  description : Str
  error : Str
  code_field : Option Str
  deriving DecidableEq

/-- Embeds query_zoning_or_flu (src/streamlit_app.py lines 87-146). The two
network calls are inputs: metaFields is the field list of the layer schema
(error = fetch raised) and queryFeats the spatial-query feature list (error
= query raised). -/
def query_zoning_or_flu (layer_url : Str) (metaFields : Except Str (List FieldDef))
    (queryFeats : Except Str (List Attrs)) (kind : Str) : QueryOut :=
  if layer_url.isEmpty then ⟨false, [], [], ofS "Missing layer URL.", none⟩
  else
    match metaFields with
    | .error e => ⟨false, [], [], ofS "Layer metadata fetch failed: " ++ e, none⟩
    | .ok fields =>
      match pick_best_code_field fields kind with
      | none => ⟨false, [], [],
          ofS "Could not identify a likely code field from layer metadata.", none⟩
      | some field_def =>
        let code_field := field_def.name
        let domain_map := coded_value_map field_def
        match queryFeats with
        | .error e => ⟨false, [], [], ofS "Layer query failed: " ++ e, none⟩
        | .ok feats =>
          match extract_first_attributes feats with
          | none => ⟨false, [], [], ofS "No intersecting feature returned.", none⟩
          | some attrs =>
            if attrs.isEmpty then
              ⟨false, [], [], ofS "No intersecting feature returned.", none⟩
            else
              let code : Option Str := (attrsGet attrs code_field).join
              let desc : Str :=
                match code with
                | some c =>
                  if !domain_map.isEmpty && dictHas domain_map c then
                    (dictGetLast domain_map c).getD []
                  else first_alt_desc attrs
                | none => first_alt_desc attrs
              ⟨true, (match code with | some c => c | none => []), desc, [],
                some code_field⟩

/-- Result shape of lookup_unincorporated_zoning. Codes are optional
strings: none models a JSON null carried through from the layer. -/
structure UnincOut where
  success : Bool
  zoning_code : Option Str
  zoning_description : Str
  future_land_use : Option Str
  future_land_use_description : Str
  error : Str
  deriving DecidableEq

/-- Embeds lookup_unincorporated_zoning (src/app.py lines 617-720). The
network calls are inputs: fetchedZ and fetchedF are the fetch_coded_values
results (empty on failure, src/app.py lines 358-392), staticZ and staticF
stand for the hardcoded UNINCORPORATED_ZONING_DESCRIPTIONS and
UNINCORPORATED_FLU_DESCRIPTIONS tables, geocodeOk mirrors a non-empty
geocoder candidate list, and zoningFeats and fluFeats are the features
returned by the two layer queries. -/
def lookup_unincorporated_zoning (address : Str)
    (fetchedZ fetchedF staticZ staticF : List (Str × Str))
    (geocodeOk : Bool) (zoningFeats fluFeats : List Attrs) : UnincOut :=
  if address.isEmpty then
    ⟨false, none, [], none, [], ofS "Address required for zoning lookup"⟩
  else
    let zoning_lookup := if fetchedZ.isEmpty then staticZ else fetchedZ
    let flu_lookup := if fetchedF.isEmpty then staticF else fetchedF
    if !geocodeOk then
      ⟨false, none, [], none, [], ofS "Could not geocode address"⟩
    else
      let zpair : Option Str × Str :=
        match zoningFeats with
        | [] => (some [], [])
        | attrs :: _ =>
          let zcode := (attrsGet attrs (ofS "ZONEDESC")).getD (some [])
          (zcode, match zcode with
            | some c => (dictGet zoning_lookup c).getD []
            | none => [])
      let fpair : Option Str × Str :=
        match fluFeats with
        | [] => (some [], [])
        | attrs :: _ =>
          let a := (attrsGet attrs (ofS "LANDUSECODE")).join
          let fcode : Option Str :=
            match a with
            | some v =>
              if v.isEmpty then (attrsGet attrs (ofS "LANDUSEDESC")).getD (some [])
              else some v
            | none => (attrsGet attrs (ofS "LANDUSEDESC")).getD (some [])
          (fcode, match fcode with
            | some c => (dictGet flu_lookup c).getD []
            | none => [])
      ⟨true, zpair.1, zpair.2, fpair.1, fpair.2, []⟩

/-- C5 as claimed, instantiated on the unincorporated path: when the fetched
domain map does not contain the code, resolution is claimed to fall back to
the supplied static table. -/
def claim_C5 : Prop :=
  ∀ (address : Str) (fetchedZ staticZ : List (Str × Str)) (c d : Str)
    (attrs : Attrs) (rest : List Attrs),
    address ≠ [] →
    fetchedZ ≠ [] →
    dictGet fetchedZ c = none →
    dictGet staticZ c = some d →
    attrsGet attrs (ofS "ZONEDESC") = some (some c) →
    (lookup_unincorporated_zoning address fetchedZ [] staticZ [] true
        (attrs :: rest) []).zoning_description = d

/-- C5 counterexample: a non-empty fetched domain map that lacks the code
R-1 while the static table has it; the code resolves to an empty
description, the static table is never consulted. -/
theorem spec_C5_cex : ¬ claim_C5 := by
  intro h
  have := h (ofS "200 Central Ave") [(ofS "A", ofS "Apartment")]
    [(ofS "R-1", ofS "Single Family Residential")]
    (ofS "R-1") (ofS "Single Family Residential")
    [(ofS "ZONEDESC", some (ofS "R-1"))] []
    (by decide) (by decide) (by decide) (by decide) (by decide)
  exact absurd this (by decide)

/-- C5 amended: the code map is built exactly from the domain pairs when the
field carries a codedValue domain and is empty otherwise; in the discovered
layer path the description comes from the domain map exactly when that map
is non-empty and contains the code, and otherwise from the first truthy
alternate description field, with the raw code returned and success kept
even when everything misses; in the unincorporated path the static table
replaces the fetched map only when the fetched map is entirely empty, and a
code absent from the operative map yields an empty description with success
still true (no alternate-field fallback exists on that path). -/
theorem spec_C5_resolution :
    (∀ (f : FieldDef) (d : DomainDef), f.domain = some d → d.type = ofS "codedValue" →
        coded_value_map f = d.codedValues)
    ∧ (∀ f : FieldDef, has_coded_domain f = false → coded_value_map f = [])
    ∧ (∀ (url : Str) (fields : List FieldDef) (feats : List Attrs) (kind : Str)
        (fd : FieldDef) (attrs : Attrs) (rest : List Attrs) (c : Str),
        url ≠ [] → pick_best_code_field fields kind = some fd →
        feats = attrs :: rest → attrs ≠ [] →
        (attrsGet attrs fd.name).join = some c →
        coded_value_map fd ≠ [] → dictHas (coded_value_map fd) c = true →
        query_zoning_or_flu url (.ok fields) (.ok feats) kind
          = ⟨true, c, (dictGetLast (coded_value_map fd) c).getD [], [], some fd.name⟩)
    ∧ (∀ (url : Str) (fields : List FieldDef) (feats : List Attrs) (kind : Str)
        (fd : FieldDef) (attrs : Attrs) (rest : List Attrs) (c : Str),
        url ≠ [] → pick_best_code_field fields kind = some fd →
        feats = attrs :: rest → attrs ≠ [] →
        (attrsGet attrs fd.name).join = some c →
        (coded_value_map fd = [] ∨ dictHas (coded_value_map fd) c = false) →
        query_zoning_or_flu url (.ok fields) (.ok feats) kind
          = ⟨true, c, first_alt_desc attrs, [], some fd.name⟩)
    ∧ (∀ (address : Str) (fetchedZ fetchedF staticZ staticF : List (Str × Str))
        (attrs : Attrs) (rest fluFeats : List Attrs) (c : Str),
        address ≠ [] →
        attrsGet attrs (ofS "ZONEDESC") = some (some c) →
        (lookup_unincorporated_zoning address fetchedZ fetchedF staticZ staticF true
            (attrs :: rest) fluFeats).success = true
        ∧ (lookup_unincorporated_zoning address fetchedZ fetchedF staticZ staticF true
            (attrs :: rest) fluFeats).zoning_code = some c
        ∧ (lookup_unincorporated_zoning address fetchedZ fetchedF staticZ staticF true
            (attrs :: rest) fluFeats).zoning_description
          = (dictGet (if fetchedZ.isEmpty then staticZ else fetchedZ) c).getD []) := by
  refine ⟨?_, ?_, ?_, ?_, ?_⟩
  · intro f d hdom htype
    unfold coded_value_map
    rw [hdom]
    simp [htype]
  · intro f hnc
    unfold coded_value_map has_coded_domain at *
    match hf : f.domain with
    | none => rfl
    | some d =>
      rw [hf] at hnc
      have hnc' : (d.type == ofS "codedValue") = false := hnc
      simp [hnc']
  · intro url fields feats kind fd attrs rest c hurl hpick hfeats hattrs hcode hdm hhas
    subst hfeats
    unfold query_zoning_or_flu
    rw [if_neg (by simpa [List.isEmpty_iff] using hurl)]
    simp only [hpick, extract_first_attributes]
    rw [if_neg (by simpa [List.isEmpty_iff] using hattrs)]
    simp only [hcode]
    rw [if_pos (by simp [hhas, List.isEmpty_eq_false.mpr hdm])]
  · intro url fields feats kind fd attrs rest c hurl hpick hfeats hattrs hcode hmiss
    subst hfeats
    unfold query_zoning_or_flu
    rw [if_neg (by simpa [List.isEmpty_iff] using hurl)]
    simp only [hpick, extract_first_attributes]
    rw [if_neg (by simpa [List.isEmpty_iff] using hattrs)]
    simp only [hcode]
    rcases hmiss with hdm | hhas
    · rw [if_neg (by simp [hdm])]
    · rw [if_neg (by simp [hhas])]
  · intro address fetchedZ fetchedF staticZ staticF attrs rest fluFeats c haddr hzc
    have hred : lookup_unincorporated_zoning address fetchedZ fetchedF staticZ staticF true
        (attrs :: rest) fluFeats
        = ⟨true,
            (attrsGet attrs (ofS "ZONEDESC")).getD (some []),
            (match (attrsGet attrs (ofS "ZONEDESC")).getD (some []) with
              | some c0 => (dictGet (if fetchedZ.isEmpty then staticZ else fetchedZ) c0).getD []
              | none => []),
            (lookup_unincorporated_zoning address fetchedZ fetchedF staticZ staticF true
                (attrs :: rest) fluFeats).future_land_use,
            (lookup_unincorporated_zoning address fetchedZ fetchedF staticZ staticF true
                (attrs :: rest) fluFeats).future_land_use_description,
            []⟩ := by
      unfold lookup_unincorporated_zoning
      rw [if_neg (by simpa [List.isEmpty_iff] using haddr)]
      simp
    rw [hred]
    simp [hzc]

/-- C5 amended witness: with an empty fetched map the static table resolves
the code on the unincorporated path. -/
theorem spec_C5_resolution_witness :
    (lookup_unincorporated_zoning (ofS "200 Central Ave") [] []
        [(ofS "R-1", ofS "Single Family Residential")] [] true
        [[(ofS "ZONEDESC", some (ofS "R-1"))]] []).zoning_description
      = ofS "Single Family Residential" :=
  ((spec_C5_resolution.2.2.2.2 (ofS "200 Central Ave") [] []
      [(ofS "R-1", ofS "Single Family Residential")] []
      [(ofS "ZONEDESC", some (ofS "R-1"))] [] [] (ofS "R-1")
      (by decide) (by decide)).2.2).trans (by decide)

/- ===================================================================
   C7: layer discovery.
   src/arcgis_utils.py lines 130-231.
   =================================================================== -/

/-- A hexadecimal character as matched by the app-id regex of
parse_webappviewer_id under IGNORECASE. -/
def isHexChar (c : Char) : Bool :=
  c.isDigit || ('a' ≤ c && c ≤ 'f') || ('A' ≤ c && c ≤ 'F')

/-- Attempt to match id= followed by exactly 32 hexadecimal characters at
the current position (case-insensitive, as the source regex is compiled
with IGNORECASE). -/
def idTokenAt (s : Str) : Option Str :=
  match s with
  | a :: b :: e :: rest =>
    if Char.toLower a == 'i' && Char.toLower b == 'd' && e == '=' then
      let h := rest.take 32
      if h.length == 32 && h.all isHexChar then some h else none
    else none
  | _ => none

/-- Embeds parse_webappviewer_id (src/arcgis_utils.py lines 136-138): scan
for a question mark or ampersand followed by id= and 32 hexadecimal
characters, returning the first such group. -/
def parse_webappviewer_id : Str → Option Str
  | [] => none
  | c :: rest =>
    if c == '?' || c == '&' then
      match idTokenAt rest with
      | some h => some h
      | none => parse_webappviewer_id rest
    else parse_webappviewer_id rest

/-- The host capture after the scheme: one or more non-slash characters
followed by a slash. -/
def hostTail (rest : Str) : Except Str Str :=
  let host := rest.takeWhile (fun c => !(c == '/'))
  if !host.isEmpty && hasPre (ofS "/") (rest.drop host.length) then .ok host
  else .error (ofS "Could not parse host from URL")

/-- Match the anchored scheme of the host regex, http or https followed by
colon-slash-slash, case-insensitively, and return the remainder. -/
def dropSchemeCI (s : Str) : Option Str :=
  match s with
  | h :: t1 :: t2 :: p :: rest =>
    if pyLower [h, t1, t2, p] == ofS "http" then
      match rest with
      | c :: r2 =>
        if Char.toLower c == 's' then
          if hasPre (ofS "://") r2 then some (r2.drop 3)
          else if hasPre (ofS "://") rest then some (rest.drop 3)
          else none
        else if hasPre (ofS "://") rest then some (rest.drop 3) else none
      | [] => none
    else none
  | _ => none

/-- Embeds arcgis_host_from_url (src/arcgis_utils.py lines 141-145); the
error value models the raised ValueError. -/
def arcgis_host_from_url (app_url : Str) : Except Str Str :=
  match dropSchemeCI (pyStrip app_url) with
  | some rest => hostTail rest
  | none => .error (ofS "Could not parse host from URL")

/-- The nested config object of an app item data document. -/
structure ConfigDoc where
  webmap : Option Str := none
  deriving DecidableEq

/-- The values object of an app item data document. -/
structure ValuesDoc where
  webmap : Option Str := none
  config : Option ConfigDoc := none
  deriving DecidableEq

/-- An app item document restricted to the keys extract_webmap_id reads
(src/arcgis_utils.py lines 163-179). -/
structure ItemDoc where
  webmap : Option Str := none
  values : Option ValuesDoc := none
  deriving DecidableEq

/-- The length-32 string guard applied to every candidate webmap id. -/
def len32 : Option Str → Option Str
  | some w => if w.length == 32 then some w else none
  | none => none

/-- One source document pass of extract_webmap_id: top-level webmap key,
then values.webmap, then values.config.webmap. -/
def webmap_from_doc (src : ItemDoc) : Option Str :=
  match len32 src.webmap with
  | some w => some w
  | none =>
    match src.values with
    | none => none
    | some vs =>
      match len32 vs.webmap with
      | some w => some w
      | none =>
        match vs.config with
        | none => none
        | some cfg => len32 cfg.webmap

/-- Embeds extract_webmap_id (src/arcgis_utils.py lines 163-179): the item
data document is preferred over the item metadata document; a missing
document (fetch failure swallowed by try_item_json, lines 148-160) is
modelled as none. -/
def extract_webmap_id (meta data : Option ItemDoc) : Option Str :=
  match webmap_from_doc (data.getD ⟨none, none⟩) with
  | some w => some w
  | none => webmap_from_doc (meta.getD ⟨none, none⟩)

/-- An operational layer entry of a web-map data document. -/
structure OpLayer where
  url : Option Str := none
  title : Option Str := none
  layerType : Option Str := none
  deriving DecidableEq

/-- A web-map data document restricted to its operationalLayers list. -/
structure WebmapDoc where
  operationalLayers : List OpLayer := []
  deriving DecidableEq

/-- A discovered layer: title and query URL (src/arcgis_utils.py lines
130-133). -/
structure DiscoveredLayer where
  title : Str
  url : Str
  deriving DecidableEq

/-- The Python truthiness filter on an optional string: present and
non-empty. -/
def truthyStr : Option Str → Option Str
  | some s => if s.isEmpty then none else some s
  | none => none

/-- Embeds the layer-list construction of
extract_operational_layers_from_webmap (src/arcgis_utils.py lines 182-191),
after the web-map data fetch: layers with a truthy url are kept, titled by
title, else layerType, else the literal Layer. -/
def extract_operational_layers (wm : WebmapDoc) : List DiscoveredLayer :=
  wm.operationalLayers.filterMap (fun lyr =>
    (truthyStr lyr.url).map (fun u =>
      ⟨(truthyStr lyr.title).getD ((truthyStr lyr.layerType).getD (ofS "Layer")), u⟩))

/-- The zoning title pattern (src/arcgis_utils.py line 77): the regex
alternation of zone and zoning reduces to a zone substring test since
zoning contains zone. -/
def zone_title_match (t : Str) : Bool := subIn (ofS "zone") (pyLower t)

/-- The land-use part of the FLU title pattern: land, then any run of
whitespace (possibly empty), then use. -/
def land_space_use : Str → Bool
  | [] => false
  | c :: rest =>
    (hasPre (ofS "land") (c :: rest)
      && hasPre (ofS "use") (((c :: rest).drop 4).dropWhile isPySpace))
    || land_space_use rest

/-- The FLU title pattern (src/arcgis_utils.py line 78): future, land-use
with optional whitespace, flum, or flu. -/
def flu_title_match (t : Str) : Bool :=
  let lt := pyLower t
  subIn (ofS "future") lt || land_space_use lt
    || subIn (ofS "flum") lt || subIn (ofS "flu") lt

/-- Embeds pick_candidate_layers (src/arcgis_utils.py lines 194-203): the
zoning-titled and FLU-titled sublists; a layer may appear in both or in
neither. -/
def pick_candidate_layers (layers : List DiscoveredLayer) :
    List DiscoveredLayer × List DiscoveredLayer :=
  (layers.filter (fun l => zone_title_match l.title),
   layers.filter (fun l => flu_title_match l.title))

/-- The result dictionary of discover_city_layers. -/
structure DiscoverResult where
  ok : Bool
  error : Str
  host : Str
  app_item_id : Str
  webmap_id : Str
  operational_layers_count : Nat
  zoning : List DiscoveredLayer
  flu : List DiscoveredLayer
  deriving DecidableEq

/-- Embeds discover_city_layers (src/arcgis_utils.py lines 206-231). The
item metadata and item data fetches are the meta and data inputs (none
models a fetch failure, swallowed inside try_item_json); the web-map data
fetch is the webmapFetch input, whose error value models the exception that
get_json raises, which discover_city_layers does not catch, so the error
propagates out of the function (the Except error of the result). -/
def discover_city_layers (app_url : Str) (meta data : Option ItemDoc)
    (webmapFetch : Str → Except Str WebmapDoc) : Except Str DiscoverResult :=
  match parse_webappviewer_id app_url with
  | none => .ok ⟨false, ofS "Could not parse ?id=... from app URL", [], [], [], 0, [], []⟩
  | some item_id =>
    match arcgis_host_from_url app_url with
    | .error e => .error e
    | .ok host =>
      match extract_webmap_id meta data with
      | none => .ok ⟨false, ofS "Could not locate a webmap id in app item JSON",
          [], [], [], 0, [], []⟩
      | some webmap_id =>
        match webmapFetch webmap_id with
        | .error e => .error e
        | .ok wm =>
          let layers := extract_operational_layers wm
          let cands := pick_candidate_layers layers
          .ok ⟨true, [], host, item_id, webmap_id, layers.length, cands.1, cands.2⟩

/-- C7 as claimed: every discovery failure, a fetch failure included, comes
back as a returned result that carries an error and empty candidate lists;
discovery never escapes without producing such a result. -/
def claim_C7 : Prop :=
  ∀ (app_url : Str) (meta data : Option ItemDoc) (wf : Str → Except Str WebmapDoc),
    ∃ r, discover_city_layers app_url meta data wf = .ok r
      ∧ (r.ok = false → r.error ≠ [] ∧ r.zoning = [] ∧ r.flu = [])

/-- C7 counterexample: when the web-map data fetch fails, the exception
propagates out of discover_city_layers instead of being converted into a
failure result. -/
theorem spec_C7_cex : ¬ claim_C7 := by
  intro h
  obtain ⟨r, hr, _⟩ := h
    (ofS "https://example.com/apps/webappviewer/index.html?id=0123456789abcdef0123456789abcdef")
    none (some ⟨some (ofS "fedcba9876543210fedcba9876543210"), none⟩)
    (fun _ => .error (ofS "webmap fetch failed"))
  have heval : discover_city_layers
      (ofS "https://example.com/apps/webappviewer/index.html?id=0123456789abcdef0123456789abcdef")
      none (some ⟨some (ofS "fedcba9876543210fedcba9876543210"), none⟩)
      (fun _ => .error (ofS "webmap fetch failed"))
      = .error (ofS "webmap fetch failed") := rfl
  rw [heval] at hr
  exact Except.noConfusion hr

/-- C7 amended: the no-app-id and no-webmap-id failures return results with
their distinguishing error messages and empty candidate lists (item
document fetch failures surface as the no-webmap-id error); a web-map data
fetch failure propagates as an exception instead of a result; and every
returned failure result has empty candidate lists, so no partial or guessed
layer URL is ever returned on failure. -/
theorem spec_C7_discovery :
    (∀ (app_url : Str) (meta data : Option ItemDoc) (wf : Str → Except Str WebmapDoc),
        parse_webappviewer_id app_url = none →
        discover_city_layers app_url meta data wf
          = .ok ⟨false, ofS "Could not parse ?id=... from app URL", [], [], [], 0, [], []⟩)
    ∧ (∀ (app_url : Str) (meta data : Option ItemDoc) (wf : Str → Except Str WebmapDoc)
        (item_id host : Str),
        parse_webappviewer_id app_url = some item_id →
        arcgis_host_from_url app_url = .ok host →
        extract_webmap_id meta data = none →
        discover_city_layers app_url meta data wf
          = .ok ⟨false, ofS "Could not locate a webmap id in app item JSON",
              [], [], [], 0, [], []⟩)
    ∧ (∀ (app_url : Str) (meta data : Option ItemDoc) (wf : Str → Except Str WebmapDoc)
        (item_id host wmid e : Str),
        parse_webappviewer_id app_url = some item_id →
        arcgis_host_from_url app_url = .ok host →
        extract_webmap_id meta data = some wmid →
        wf wmid = .error e →
        discover_city_layers app_url meta data wf = .error e)
    ∧ (∀ (app_url : Str) (meta data : Option ItemDoc) (wf : Str → Except Str WebmapDoc)
        (r : DiscoverResult),
        discover_city_layers app_url meta data wf = .ok r → r.ok = false →
        r.zoning = [] ∧ r.flu = []) := by
  refine ⟨?_, ?_, ?_, ?_⟩
  · intro app_url meta data wf hpa
    unfold discover_city_layers
    rw [hpa]
  · intro app_url meta data wf item_id host hpa hhost hwm
    unfold discover_city_layers
    rw [hpa, hhost, hwm]
  · intro app_url meta data wf item_id host wmid e hpa hhost hwm hwf
    unfold discover_city_layers
    simp only [hpa, hhost, hwm, hwf]
  · intro app_url meta data wf r hok hfalse
    unfold discover_city_layers at hok
    rcases hpa : parse_webappviewer_id app_url with _ | item_id <;>
      simp only [hpa] at hok
    · cases hok
      exact ⟨rfl, rfl⟩
    · rcases hhost : arcgis_host_from_url app_url with e | host <;>
        simp only [hhost] at hok
      · exact Except.noConfusion hok
      · rcases hwm : extract_webmap_id meta data with _ | wmid <;>
          simp only [hwm] at hok
        · cases hok
          exact ⟨rfl, rfl⟩
        · rcases hwf : wf wmid with e' | wm <;> simp only [hwf] at hok
          · exact Except.noConfusion hok
          · cases hok
            simp at hfalse

/-- C7 amended witness: a viewer URL without an id parameter yields the
distinguishing no-app-id failure result. -/
theorem spec_C7_discovery_witness :
    discover_city_layers (ofS "https://example.com/apps/viewer") none none
        (fun _ => .ok ⟨[]⟩)
      = .ok ⟨false, ofS "Could not parse ?id=... from app URL", [], [], [], 0, [], []⟩ :=
  spec_C7_discovery.1 (ofS "https://example.com/apps/viewer") none none
    (fun _ => .ok ⟨[]⟩) (by decide)

/- ===================================================================
   C1 and C10: the two zoning routers.
   src/streamlit_app.py lines 154-225 (pinellas_lookup) and
   src/app.py lines 26-68, 601-615, 888-926.
   =================================================================== -/

/-- Embeds the title score of pick_best_layer_from_candidates
(src/streamlit_app.py lines 158-171). -/
def layer_title_score (title : Str) : Int :=
  let t := pyLower title
  (if subIn (ofS "zoning") t || subIn (ofS "zone") t then 50 else 0)
  + (if subIn (ofS "future") t then 25 else 0)
  + (if subIn (ofS "land use") t || subIn (ofS "landuse") t
      || subIn (ofS "flum") t || subIn (ofS "flu") t then 25 else 0)
  + (if subIn (ofS "overlay") t then -10 else 0)
  + (if subIn (ofS "historic") t then -5 else 0)

/-- Python max with a key function: the first element attaining the maximal
key, folded left to right. -/
def max_by_score : DiscoveredLayer → List DiscoveredLayer → DiscoveredLayer
  | best, [] => best
  | best, c :: rest =>
    if layer_title_score best.title < layer_title_score c.title
    then max_by_score c rest else max_by_score best rest

/-- Embeds pick_best_layer_from_candidates (src/streamlit_app.py lines
154-174): none on an empty candidate list, else the url of the
highest-scoring candidate. -/
def pick_best_layer_from_candidates (candidates : List DiscoveredLayer) : Option Str :=
  match candidates with
  | [] => none
  | c :: rest => some (max_by_score c rest).url

/-- A statically configured zoning and FLU layer pair (the
known_city_overrides entries of the configuration). -/
structure LayerPair where
  zoning_layer : Str
  flu_layer : Str
  deriving DecidableEq

/-- The result dictionary of pinellas_lookup, restricted to the fields the
router decides (the county and parcel-id echoes and the discovery echo are
omitted). -/
structure PinellasLookupResult where
  status : Str
  jurisdiction : Str
  error : Str
  zoning : Option QueryOut
  future_land_use : Option QueryOut
  deriving DecidableEq

/-- Lookup of a jurisdiction in the known_city_overrides table. -/
def lookupOverride (overrides : List (Str × LayerPair)) (j : Str) : Option LayerPair :=
  (overrides.find? (fun kv => kv.1 == j)).map (fun kv => kv.2)

/-- Embeds pinellas_lookup (src/streamlit_app.py lines 177-225). Network
effects are inputs: geomFound is whether the parcel geometry query found a
geometry, muniFeats the boundary features of the jurisdiction query,
appUrl the app-URL chain of the city-apps configuration (none models no
configured app URL), discovery the dictionary returned by
cached_discover_city_layers, and runQuery the result of
query_zoning_or_flu per layer URL and kind. -/
def pinellas_lookup (parcel_id : Str) (geomFound : Bool)
    (muniFeats : List Attrs) (muniNameField : Str)
    (overrides : List (Str × LayerPair)) (unincPair : LayerPair)
    (appUrl : Str → Option Str) (discovery : DiscoverResult)
    (runQuery : Str → Str → QueryOut) : PinellasLookupResult :=
  if !geomFound then
    ⟨ofS "not_found", [], ofS "Parcel geometry not found in county parcel layer.",
      none, none⟩
  else
    let jurisdiction := pinellas_get_jurisdiction muniFeats muniNameField
    match lookupOverride overrides jurisdiction with
    | some pair =>
      ⟨ofS "ok", jurisdiction, [], some (runQuery pair.zoning_layer (ofS "zoning")),
        some (runQuery pair.flu_layer (ofS "flu"))⟩
    | none =>
      if hasPre (ofS "unincorporated") (pyLower jurisdiction) then
        ⟨ofS "ok", jurisdiction, [],
          some (runQuery unincPair.zoning_layer (ofS "zoning")),
          some (runQuery unincPair.flu_layer (ofS "flu"))⟩
      else
        match appUrl jurisdiction with
        | none =>
          ⟨ofS "not_found", jurisdiction,
            ofS "No app URL configured for this jurisdiction.", none, none⟩
        | some _ =>
          if !discovery.ok then
            ⟨ofS "service_unavailable", jurisdiction, discovery.error, none, none⟩
          else
            ⟨ofS "ok", jurisdiction, [],
              some (match pick_best_layer_from_candidates discovery.zoning with
                | some u => runQuery u (ofS "zoning")
                | none => ⟨false, [], [], ofS "No zoning candidate layers found.", none⟩),
              some (match pick_best_layer_from_candidates discovery.flu with
                | some u => runQuery u (ofS "flu")
                | none => ⟨false, [], [], ofS "No FLU candidate layers found.", none⟩)⟩

/-- The Pinellas tax-district abbreviation map (src/app.py lines 26-60). -/
def PINELLAS_CITY_MAP : List (Str × Str) :=
  [(ofS "SP", ofS "St. Petersburg"),
   (ofS "ST PETERSBURG", ofS "St. Petersburg"),
   (ofS "ST. PETERSBURG", ofS "St. Petersburg"),
   (ofS "CLEARWATER", ofS "Clearwater"),
   (ofS "CW", ofS "Clearwater"),
   (ofS "LARGO", ofS "Largo"),
   (ofS "LA", ofS "Largo"),
   (ofS "PINELLAS PARK", ofS "Pinellas Park"),
   (ofS "PP", ofS "Pinellas Park"),
   (ofS "DUNEDIN", ofS "Dunedin"),
   (ofS "TARPON SPRINGS", ofS "Tarpon Springs"),
   (ofS "TS", ofS "Tarpon Springs"),
   (ofS "SEMINOLE", ofS "Seminole"),
   (ofS "KENNETH CITY", ofS "Kenneth City"),
   (ofS "GULFPORT", ofS "Gulfport"),
   (ofS "MADEIRA BEACH", ofS "Madeira Beach"),
   (ofS "REDINGTON BEACH", ofS "Redington Beach"),
   (ofS "TREASURE ISLAND", ofS "Treasure Island"),
   (ofS "ST PETE BEACH", ofS "St. Pete Beach"),
   (ofS "SOUTH PASADENA", ofS "South Pasadena"),
   (ofS "BELLEAIR", ofS "Belleair"),
   (ofS "BELLEAIR BEACH", ofS "Belleair Beach"),
   (ofS "BELLEAIR BLUFFS", ofS "Belleair Bluffs"),
   (ofS "INDIAN ROCKS BEACH", ofS "Indian Rocks Beach"),
   (ofS "INDIAN SHORES", ofS "Indian Shores"),
   (ofS "NORTH REDINGTON BEACH", ofS "North Redington Beach"),
   (ofS "OLDSMAR", ofS "Oldsmar"),
   (ofS "SAFETY HARBOR", ofS "Safety Harbor"),
   (ofS "LFPW", ofS "Unincorporated Pinellas (Lealman)"),
   (ofS "LEALMAN", ofS "Unincorporated Pinellas (Lealman)"),
   (ofS "UNINCORPORATED", ofS "Unincorporated Pinellas"),
   (ofS "COUNTY", ofS "Unincorporated Pinellas")]

/-- Embeds expand_city_name (src/app.py lines 62-68): the empty (falsy)
value expands to Unincorporated Pinellas; otherwise the stripped,
upper-cased value is looked up in the abbreviation map with the original
value as the default. -/
def expand_city_name (city_abbr : Str) : Str :=
  if city_abbr.isEmpty then ofS "Unincorporated Pinellas"
  else
    match dictGet PINELLAS_CITY_MAP (pyUpper (pyStrip city_abbr)) with
    | some v => v
    | none => city_abbr

/-- The unincorporated indicator substrings (src/app.py lines 606-612). -/
def unincorporatedIndicators : List Str :=
  [ofS "UNINCORPORATED", ofS "LFPW", ofS "LEALMAN", ofS "COUNTY",
   ofS "PINELLAS COUNTY"]

/-- Embeds is_unincorporated (src/app.py lines 601-615): an empty (falsy)
city is unincorporated; otherwise some indicator occurs in the upper-cased
city name. -/
def is_unincorporated (city_name : Str) : Bool :=
  if city_name.isEmpty then true
  else unincorporatedIndicators.any (fun ind => subIn ind (pyUpper city_name))

/-- The result dictionary of the lookup_xxx_zoning family in src/app.py:
success flag, optional code and description fields, error and note. -/
structure ZoningRouteOut where
  success : Bool
  zoning_code : Option Str
  zoning_description : Option Str
  future_land_use : Option Str
  future_land_use_description : Option Str
  error : Str
  note : Str
  deriving DecidableEq

/-- Embeds lookup_pinellas_zoning (src/app.py lines 888-926). The four
jurisdiction-specific lookups it can dispatch to are inputs (their own
network effects are out of scope of the router). -/
def lookup_pinellas_zoning (city_name address : Str)
    (stpete clearwater largo uninc : ZoningRouteOut) : ZoningRouteOut :=
  if address.isEmpty then
    ⟨false, none, none, none, none, ofS "Address required for zoning lookup", []⟩
  else if subIn (ofS "St. Petersburg") city_name
      || subIn (ofS "St Petersburg") city_name then stpete
  else if subIn (ofS "Clearwater") city_name then clearwater
  else if subIn (ofS "Largo") city_name then largo
  else if is_unincorporated city_name then uninc
  else
    ⟨true, some (ofS "Contact City for zoning"), none, none, none, [],
      ofS "City-specific zoning data for " ++ city_name ++ ofS " not yet implemented"⟩

/-- C1 as claimed, on the streamlit router: a jurisdiction with no override
pair, not named unincorporated, with a configured app URL, whose discovery
failed, still yields a success-status result. -/
def claim_C1 : Prop :=
  ∀ (parcel_id : Str) (muniFeats : List Attrs) (muniNameField : Str)
    (overrides : List (Str × LayerPair)) (unincPair : LayerPair)
    (appUrl : Str → Option Str) (discovery : DiscoverResult)
    (runQuery : Str → Str → QueryOut) (u : Str),
    lookupOverride overrides (pinellas_get_jurisdiction muniFeats muniNameField) = none →
    hasPre (ofS "unincorporated")
      (pyLower (pinellas_get_jurisdiction muniFeats muniNameField)) = false →
    appUrl (pinellas_get_jurisdiction muniFeats muniNameField) = some u →
    discovery.ok = false →
    (pinellas_lookup parcel_id true muniFeats muniNameField overrides unincPair
        appUrl discovery runQuery).status = ofS "ok"

/-- C1 counterexample: for the jurisdiction Dunedin (no override), with an
app URL configured and a failed discovery, pinellas_lookup returns the
error status service_unavailable, not a success result with a placeholder. -/
theorem spec_C1_cex : ¬ claim_C1 := by
  intro h
  have := h (ofS "123") [[(ofS "NAME", some (ofS "Dunedin"))]] (ofS "NAME")
    [] ⟨[], []⟩ (fun _ => some (ofS "https://example.com/?id=x"))
    ⟨false, ofS "Could not locate a webmap id in app item JSON", [], [], [], 0, [], []⟩
    (fun _ _ => ⟨false, [], [], [], none⟩) (ofS "https://example.com/?id=x")
    (by decide) (by decide) rfl rfl
  exact absurd this (by decide)

/-- C1 amended: the two routers behave differently. In the streamlit router
a failed discovery for a non-override, non-unincorporated jurisdiction with
a configured app URL yields an error-status result (service_unavailable
carrying the discovery error), and a missing app URL yields a not_found
status; in the src/app.py router a jurisdiction outside every static branch
and not unincorporated receives a success result with the literal
Contact City for zoning placeholder, with no discovery step at all. -/
theorem spec_C1_router :
    (∀ (parcel_id : Str) (muniFeats : List Attrs) (muniNameField : Str)
      (overrides : List (Str × LayerPair)) (unincPair : LayerPair)
      (appUrl : Str → Option Str) (discovery : DiscoverResult)
      (runQuery : Str → Str → QueryOut) (u : Str),
      lookupOverride overrides (pinellas_get_jurisdiction muniFeats muniNameField) = none →
      hasPre (ofS "unincorporated")
        (pyLower (pinellas_get_jurisdiction muniFeats muniNameField)) = false →
      appUrl (pinellas_get_jurisdiction muniFeats muniNameField) = some u →
      discovery.ok = false →
      pinellas_lookup parcel_id true muniFeats muniNameField overrides unincPair
          appUrl discovery runQuery
        = ⟨ofS "service_unavailable", pinellas_get_jurisdiction muniFeats muniNameField,
            discovery.error, none, none⟩)
    ∧ (∀ (parcel_id : Str) (muniFeats : List Attrs) (muniNameField : Str)
      (overrides : List (Str × LayerPair)) (unincPair : LayerPair)
      (appUrl : Str → Option Str) (discovery : DiscoverResult)
      (runQuery : Str → Str → QueryOut),
      lookupOverride overrides (pinellas_get_jurisdiction muniFeats muniNameField) = none →
      hasPre (ofS "unincorporated")
        (pyLower (pinellas_get_jurisdiction muniFeats muniNameField)) = false →
      appUrl (pinellas_get_jurisdiction muniFeats muniNameField) = none →
      pinellas_lookup parcel_id true muniFeats muniNameField overrides unincPair
          appUrl discovery runQuery
        = ⟨ofS "not_found", pinellas_get_jurisdiction muniFeats muniNameField,
            ofS "No app URL configured for this jurisdiction.", none, none⟩)
    ∧ (∀ (city_name address : Str) (stpete clearwater largo uninc : ZoningRouteOut),
      address ≠ [] →
      subIn (ofS "St. Petersburg") city_name = false →
      subIn (ofS "St Petersburg") city_name = false →
      subIn (ofS "Clearwater") city_name = false →
      subIn (ofS "Largo") city_name = false →
      is_unincorporated city_name = false →
      lookup_pinellas_zoning city_name address stpete clearwater largo uninc
        = ⟨true, some (ofS "Contact City for zoning"), none, none, none, [],
            ofS "City-specific zoning data for " ++ city_name
              ++ ofS " not yet implemented"⟩) := by
  refine ⟨?_, ?_, ?_⟩
  · intro parcel_id muniFeats muniNameField overrides unincPair appUrl discovery
      runQuery u hov hun happ hdisc
    unfold pinellas_lookup
    simp only [hov, hun, happ, hdisc, Bool.not_false, Bool.not_true]
    rfl
  · intro parcel_id muniFeats muniNameField overrides unincPair appUrl discovery
      runQuery hov hun happ
    unfold pinellas_lookup
    simp only [hov, hun, happ, Bool.not_true]
    rfl
  · intro city_name address stpete clearwater largo uninc haddr h1 h2 h3 h4 h5
    unfold lookup_pinellas_zoning
    rw [if_neg (by simpa [List.isEmpty_iff] using haddr),
        if_neg (by simp [h1, h2]), if_neg (by simp [h3]),
        if_neg (by simp [h4]), if_neg (by simp [h5])]

/-- C1 amended witness: Dunedin goes through the placeholder branch of the
src/app.py router, and the streamlit router degrades a failed discovery to
service_unavailable. -/
theorem spec_C1_router_witness :
    lookup_pinellas_zoning (ofS "Dunedin") (ofS "123 Main St")
        ⟨true, none, none, none, none, [], []⟩ ⟨true, none, none, none, none, [], []⟩
        ⟨true, none, none, none, none, [], []⟩ ⟨true, none, none, none, none, [], []⟩
      = ⟨true, some (ofS "Contact City for zoning"), none, none, none, [],
          ofS "City-specific zoning data for " ++ ofS "Dunedin"
            ++ ofS " not yet implemented"⟩ :=
  spec_C1_router.2.2 (ofS "Dunedin") (ofS "123 Main St") _ _ _ _
    (by decide) (by decide) (by decide) (by decide) (by decide) (by decide)

/-- C10: an empty city value expands to Unincorporated Pinellas, satisfies
the unincorporated predicate, and is dispatched by the router to the
unincorporated county lookup; a non-empty city value absent from the
abbreviation map is returned unchanged. -/
theorem spec_C10_empty_city :
    expand_city_name [] = ofS "Unincorporated Pinellas"
    ∧ is_unincorporated [] = true
    ∧ (∀ (address : Str) (stpete clearwater largo uninc : ZoningRouteOut),
        address ≠ [] →
        lookup_pinellas_zoning [] address stpete clearwater largo uninc = uninc)
    ∧ (∀ c : Str, c ≠ [] →
        dictGet PINELLAS_CITY_MAP (pyUpper (pyStrip c)) = none →
        expand_city_name c = c) := by
  refine ⟨rfl, rfl, ?_, ?_⟩
  · intro address stpete clearwater largo uninc haddr
    unfold lookup_pinellas_zoning
    rw [if_neg (by simpa [List.isEmpty_iff] using haddr),
        if_neg (by decide), if_neg (by decide), if_neg (by decide),
        if_pos (by decide)]
  · intro c hc hmap
    unfold expand_city_name
    rw [if_neg (by simpa [List.isEmpty_iff] using hc), hmap]

/-- C10 witness: an empty city with a non-empty address routes to the
unincorporated result, and an unknown city name is returned unchanged by
expansion. -/
theorem spec_C10_empty_city_witness :
    lookup_pinellas_zoning [] (ofS "200 Central Ave")
        ⟨true, none, none, none, none, [], []⟩ ⟨true, none, none, none, none, [], []⟩
        ⟨true, none, none, none, none, [], []⟩
        ⟨true, some (ofS "R-1"), some (ofS "Single Family"), none, none, [], []⟩
      = ⟨true, some (ofS "R-1"), some (ofS "Single Family"), none, none, [], []⟩
    ∧ expand_city_name (ofS "Xyzzy") = ofS "Xyzzy" :=
  ⟨spec_C10_empty_city.2.2.1 (ofS "200 Central Ave") _ _ _ _ (by decide),
   spec_C10_empty_city.2.2.2 (ofS "Xyzzy") (by decide) (by decide)⟩

/- ===================================================================
   C9: site-area extraction.
   src/app.py lines 540-592 (scrape_pinellas_property detail-page parse)
   and lines 1126-1149 (lookup_hillsborough_parcel).
   =================================================================== -/

/-- Match a literal at the start of the input and return the remainder. -/
def dropLit (lit s : Str) : Option Str :=
  if hasPre lit s then some (s.drop lit.length) else none

/-- Match one-or-more characters of a class at the start of the input,
greedily, returning the matched group and the remainder. -/
def spanPlus (p : Char → Bool) (s : Str) : Option (Str × Str) :=
  let g := s.takeWhile p
  if g.isEmpty then none else some (g, s.drop g.length)

/-- Match the land-area regex of src/app.py line 568 at the current
position: the literal Land Area: then a congruence sign, a digit-and-comma
group, the literal sf, a bar, another congruence sign, a digit-and-dot
group, and the literal acres, with optional whitespace between tokens. The
two captured groups are returned. Both greedy character classes have
deterministic boundaries here, so no backtracking is needed. -/
def matchLandAreaAt (s : Str) : Option (Str × Str) := do
  let r1 ← dropLit (ofS "Land Area:") s
  let r3 ← dropLit ['≅'] (r1.dropWhile isPySpace)
  let (g1, r5) ← spanPlus (fun c => c.isDigit || c == ',') (r3.dropWhile isPySpace)
  let r7 ← dropLit (ofS "sf") (r5.dropWhile isPySpace)
  let r9 ← dropLit (ofS "|") (r7.dropWhile isPySpace)
  let r11 ← dropLit ['≅'] (r9.dropWhile isPySpace)
  let (g2, r13) ← spanPlus (fun c => c.isDigit || c == '.') (r11.dropWhile isPySpace)
  let _ ← dropLit (ofS "acres") (r13.dropWhile isPySpace)
  pure (g1, g2)

/-- The re.search behaviour: try the pattern at every start position, first
match wins. -/
def searchLandArea : Str → Option (Str × Str)
  | [] => none
  | c :: rest =>
    match matchLandAreaAt (c :: rest) with
    | some r => some r
    | none => searchLandArea rest

/-- Decimal digits to a natural number. -/
def digitsToNat (s : Str) : Nat :=
  s.foldl (fun n c => n * 10 + (c.toNat - '0'.toNat)) 0

/-- Python int of the first captured group with commas removed (src/app.py
line 570); none models the ValueError on a group with no digits. -/
def pyIntOfCommaDigits (g : Str) : Option Nat :=
  let d := g.filter (fun c => !(c == ','))
  if !d.isEmpty && d.all Char.isDigit then some (digitsToNat d) else none

/-- Python float of the second captured group (src/app.py line 571), whose
characters are digits and dots: digits, an optional dot and fraction; none
models the ValueError on tokens such as a lone dot or two dots. -/
def pyFloatOfToken (g : Str) : Option ℚ :=
  let ip := g.takeWhile Char.isDigit
  let rest := g.drop ip.length
  match rest with
  | [] => if ip.isEmpty then none else some (digitsToNat ip)
  | '.' :: fp =>
    if fp.all Char.isDigit && !(ip.isEmpty && fp.isEmpty) then
      some ((digitsToNat ip : ℚ) + (digitsToNat fp : ℚ) / ((10 : ℚ) ^ fp.length))
    else none
  | _ => none

/-- Embeds the sqft and acres extraction of scrape_pinellas_property
(src/app.py lines 540-578): both values come from one regex over the detail
page text; on no match, or when int fails, both stay None; when float fails
after int succeeded, only the acreage stays None. The string formatting of
the extracted numbers (lines 588-589) is omitted; the numeric values are
returned. -/
def pinellas_land_area (text : Str) : Option Nat × Option ℚ :=
  match searchLandArea text with
  | none => (none, none)
  | some (g1, g2) =>
    match pyIntOfCommaDigits g1 with
    | none => (none, none)
    | some n =>
      match pyFloatOfToken g2 with
      | none => (some n, none)
      | some q => (some n, some q)

/-- Embeds the acreage selection of lookup_hillsborough_parcel (src/app.py
lines 1132-1133): the ACRES attribute, or else AREANO; Python numeric
truthiness is approximated by non-emptiness of the token. The 2-decimal
formatting of the value is omitted. -/
def hillsborough_acres (attrs : Attrs) : Option Str :=
  match (attrsGet attrs (ofS "ACRES")).join with
  | some v => if v.isEmpty then (attrsGet attrs (ofS "AREANO")).join else some v
  | none => (attrsGet attrs (ofS "AREANO")).join

/-- The premise of C9, following the claim: the upstream detail text
supplies only a square-footage area value (a Land Area figure in sf, and no
acres figure anywhere in the text). -/
def suppliesOnlySqft (t digits : Str) : Prop :=
  digits ≠ [] ∧ (∀ c ∈ digits, c.isDigit = true)
  ∧ (∃ pre post : Str, t = pre ++ ofS "Land Area: ≅ " ++ digits ++ ofS " sf" ++ post)
  ∧ subIn (ofS "acres") t = false

/-- C9 as claimed: when only square footage is supplied, the acreage is
computed as that figure divided by 43560. -/
def claim_C9 : Prop :=
  ∀ t digits : Str, suppliesOnlySqft t digits →
    (pinellas_land_area t).2 = some ((digitsToNat digits : ℚ) / 43560)

/-- C9 counterexample: a detail text supplying exactly 43560 sf and no
acres figure; the claimed conversion would give one acre, but the code
extracts nothing at all (the regex requires both figures), so the acreage
stays None. -/
theorem spec_C9_cex : ¬ claim_C9 := by
  intro h
  have := h (ofS "Land Area: ≅ 43560 sf") (ofS "43560")
    ⟨by decide, by decide, ⟨[], [], by decide⟩, by decide⟩
  have heval : (pinellas_land_area (ofS "Land Area: ≅ 43560 sf")).2 = none := by decide
  rw [heval] at this
  exact Option.noConfusion this

theorem subIn_of_hasPre {n s : Str} (h : hasPre n s = true) : subIn n s = true := by
  cases s with
  | nil =>
    cases n with
    | nil => rfl
    | cons a t => exact Bool.noConfusion h
  | cons c rest =>
    unfold subIn
    rw [h]
    simp

theorem subIn_append_left {n s : Str} (t : Str) (h : subIn n s = true) :
    subIn n (t ++ s) = true := by
  induction t with
  | nil => simpa using h
  | cons c t' ih =>
    show subIn n (c :: (t' ++ s)) = true
    unfold subIn
    rw [ih]
    simp

theorem subIn_of_suffix {n s' s : Str} (hs : s' <:+ s) (h : subIn n s' = true) :
    subIn n s = true := by
  obtain ⟨t, rfl⟩ := hs
  exact subIn_append_left t h

theorem dropLit_suffix {lit s r : Str} (h : dropLit lit s = some r) : r <:+ s := by
  unfold dropLit at h
  by_cases hp : hasPre lit s = true
  · rw [if_pos hp] at h
    cases h
    exact ⟨s.take lit.length, List.take_append_drop _ _⟩
  · rw [if_neg hp] at h
    cases h

theorem dropLit_hasPre {lit s r : Str} (h : dropLit lit s = some r) :
    hasPre lit s = true := by
  unfold dropLit at h
  by_cases hp : hasPre lit s = true
  · exact hp
  · rw [if_neg hp] at h
    cases h

theorem dropWhile_suffix (p : Char → Bool) (l : Str) : l.dropWhile p <:+ l :=
  ⟨l.takeWhile p, List.takeWhile_append_dropWhile p l⟩

theorem spanPlus_suffix {p : Char → Bool} {s g r : Str}
    (h : spanPlus p s = some (g, r)) : r <:+ s := by
  unfold spanPlus at h
  by_cases he : (s.takeWhile p).isEmpty = true
  · rw [if_pos he] at h
    cases h
  · rw [if_neg he] at h
    cases h
    exact ⟨s.take (s.takeWhile p).length, List.take_append_drop _ _⟩

/-- A successful match of the land-area pattern forces the literal acres to
occur in the scanned text. -/
theorem matchLandAreaAt_acres {s : Str} {r : Str × Str}
    (h : matchLandAreaAt s = some r) : subIn (ofS "acres") s = true := by
  unfold matchLandAreaAt at h
  rcases Option.bind_eq_some.mp h with ⟨r1, h1, h⟩
  rcases Option.bind_eq_some.mp h with ⟨r3, h3, h⟩
  rcases Option.bind_eq_some.mp h with ⟨⟨g1, r5⟩, h5, h⟩
  rcases Option.bind_eq_some.mp h with ⟨r7, h7, h⟩
  rcases Option.bind_eq_some.mp h with ⟨r9, h9, h⟩
  rcases Option.bind_eq_some.mp h with ⟨r11, h11, h⟩
  rcases Option.bind_eq_some.mp h with ⟨⟨g2, r13⟩, h13, h⟩
  rcases Option.bind_eq_some.mp h with ⟨r15, h15, _⟩
  have t1 : r13.dropWhile isPySpace <:+ r13 := dropWhile_suffix _ _
  have t2 : r13 <:+ r11.dropWhile isPySpace := spanPlus_suffix h13
  have t3 : r11.dropWhile isPySpace <:+ r11 := dropWhile_suffix _ _
  have t4 : r11 <:+ r9.dropWhile isPySpace := dropLit_suffix h11
  have t5 : r9.dropWhile isPySpace <:+ r9 := dropWhile_suffix _ _
  have t6 : r9 <:+ r7.dropWhile isPySpace := dropLit_suffix h9
  have t7 : r7.dropWhile isPySpace <:+ r7 := dropWhile_suffix _ _
  have t8 : r7 <:+ r5.dropWhile isPySpace := dropLit_suffix h7
  have t9 : r5.dropWhile isPySpace <:+ r5 := dropWhile_suffix _ _
  have t10 : r5 <:+ r3.dropWhile isPySpace := spanPlus_suffix h5
  have t11 : r3.dropWhile isPySpace <:+ r3 := dropWhile_suffix _ _
  have t12 : r3 <:+ r1.dropWhile isPySpace := dropLit_suffix h3
  have t13 : r1.dropWhile isPySpace <:+ r1 := dropWhile_suffix _ _
  have t14 : r1 <:+ s := dropLit_suffix h1
  have hsuf : r13.dropWhile isPySpace <:+ s :=
    t1.trans (t2.trans (t3.trans (t4.trans (t5.trans (t6.trans (t7.trans
      (t8.trans (t9.trans (t10.trans (t11.trans (t12.trans (t13.trans t14))))))))))))
  exact subIn_of_suffix hsuf (subIn_of_hasPre (dropLit_hasPre h15))

theorem searchLandArea_acres {t : Str} {r : Str × Str}
    (h : searchLandArea t = some r) : subIn (ofS "acres") t = true := by
  induction t with
  | nil => cases h
  | cons c rest ih =>
    unfold searchLandArea at h
    rcases hm : matchLandAreaAt (c :: rest) with _ | r' <;> simp only [hm] at h
    · have hrest := ih h
      unfold subIn
      rw [hrest]
      simp
    · cases h
      exact matchLandAreaAt_acres hm

/-- C9 amended: no conversion by 43560 exists anywhere. Both area figures
are parsed verbatim from the detail page; a text that nowhere mentions
acres (in particular one supplying only square footage) yields no area at
all, sqft included; when both figures parse, both are returned verbatim;
the documented full-text example extracts 43560 sf and 1.36 acres as
parsed; and the Hillsborough path takes acreage only from the ACRES or
AREANO attributes, yielding none when both are absent. -/
theorem spec_C9_no_conversion :
    (∀ t : Str, subIn (ofS "acres") t = false → pinellas_land_area t = (none, none))
    ∧ (∀ (t g1 g2 : Str) (n : Nat) (q : ℚ),
        searchLandArea t = some (g1, g2) →
        pyIntOfCommaDigits g1 = some n → pyFloatOfToken g2 = some q →
        pinellas_land_area t = (some n, some q))
    ∧ pinellas_land_area (ofS "Land Area: ≅ 43,560 sf | ≅ 1.36 acres")
        = (some 43560, some (34 / 25))
    ∧ (∀ attrs : Attrs,
        attrsGet attrs (ofS "ACRES") = none → attrsGet attrs (ofS "AREANO") = none →
        hillsborough_acres attrs = none) := by
  refine ⟨?_, ?_, ?_, ?_⟩
  · intro t hno
    rcases hs : searchLandArea t with _ | r
    · unfold pinellas_land_area
      rw [hs]
    · exact absurd (searchLandArea_acres hs) (by simp [hno])
  · intro t g1 g2 n q hsearch hint hfloat
    unfold pinellas_land_area
    simp only [hsearch, hint, hfloat]
  · have hs : searchLandArea (ofS "Land Area: ≅ 43,560 sf | ≅ 1.36 acres")
        = some (ofS "43,560", ofS "1.36") := by decide
    have hi : pyIntOfCommaDigits (ofS "43,560") = some 43560 := by decide
    have hq : pyFloatOfToken (ofS "1.36") = some (34 / 25) := by
      have h36 : pyFloatOfToken (ofS "1.36")
          = some (((1 : Nat) : ℚ) + ((36 : Nat) : ℚ) / (10 : ℚ) ^ (2 : Nat)) := rfl
      rw [h36]
      refine congrArg some ?_
      norm_num
    unfold pinellas_land_area
    simp only [hs, hi, hq]
  · intro attrs h1 h2
    unfold hillsborough_acres
    rw [h1, h2]
    rfl

/-- C9 amended witness: a detail text with a square-footage figure but no
acres figure yields no extracted area at all. -/
theorem spec_C9_no_conversion_witness :
    pinellas_land_area (ofS "Parcel 2 Land Area: ≅ 120 sf approx") = (none, none) :=
  spec_C9_no_conversion.1 (ofS "Parcel 2 Land Area: ≅ 120 sf approx") (by decide)

end ParcelLookup
